import Mathlib

/-!
Shallow embedding of the paste-delivery engine of `ClipboardManager`
(src/src/helpers/modelManagerBridge.js).  Pure JS helpers become Lean
functions; subprocess spawns become oracle inputs (`ProcOutcome`,
`SpawnSyncRes`, probe functions) describing how the spawned child behaved;
the stateful TTL caches become explicit state passing.  Scheduled
clipboard restorations (`setTimeout(.., delay)` writing the original
clipboard back) are recorded as `(delayMs, text)` events, and forced
child terminations (`killProcess(.., "SIGKILL")` from a timeout timer)
are recorded as `(processName, timeoutMs)` events.
-/

namespace OpenWhispr

/-- Char-list prefix test, used to express the JS `String.prototype.includes`
substring semantics. -/
def charsPre : List Char → List Char → Bool
  | [], _ => true
  | _ :: _, [] => false
  | a :: as, b :: bs => a = b && charsPre as bs

/-- Substring containment on char lists (`hay` contains `sub`). -/
def charsContain : List Char → List Char → Bool
  | hay, sub =>
    match hay with
    | [] => sub.isEmpty
    | _ :: t => charsPre sub hay || charsContain t sub

/-- JS `hay.includes(sub)`. -/
def strIncludes (hay sub : String) : Bool :=
  charsContain hay.data sub.data

/-- JS `toLowerCase()` (per-character lowering). -/
def strToLower (s : String) : String :=
  ⟨s.data.map Char.toLower⟩

/-- Whitespace test for `trim`. -/
def isWsChar (c : Char) : Bool :=
  c = ' ' || c = '\n' || c = '\t' || c = '\r'

/-- JS `trim()`: strip leading and trailing whitespace. -/
def strTrim (s : String) : String :=
  ⟨((s.data.dropWhile isWsChar).reverse.dropWhile isWsChar).reverse⟩

/-- JS truthiness of an optional environment/string value: `undefined` and
`""` are falsy. -/
def envTruthy : Option String → Bool
  | none => false
  | some s => !(s == "")

/-- The environment variables `getLinuxSessionInfo` and
`getLinuxDesktopEnv` read (`none` = variable unset). -/
structure LinuxEnv where
  xdgSessionType : Option String
  waylandDisplay : Option String
  display : Option String
  xdgCurrentDesktop : Option String
  xdgSessionDesktop : Option String
  desktopSession : Option String

/-- Model of `getLinuxDesktopEnv`: join truthy desktop-identifier variables with ":"
and lower-case. -/
def getLinuxDesktopEnv (e : LinuxEnv) : String :=
  strToLower (String.intercalate ":"
    ((([e.xdgCurrentDesktop, e.xdgSessionDesktop, e.desktopSession].filterMap id).filter
      (fun s => !(s == "")))))

/-- Model of `isGnomeDesktop`: the joined desktop string contains "gnome". -/
def isGnomeDesktop (desktopEnv : String) : Bool :=
  strIncludes desktopEnv "gnome"

/-- Result of `getLinuxSessionInfo`. -/
structure SessionInfo where
  isWayland : Bool
  xwaylandAvailable : Bool
  desktopEnv : String
  isGnome : Bool
deriving DecidableEq

/-- Model of `getLinuxSessionInfo`: classify the session from environment variables. -/
def getLinuxSessionInfo (e : LinuxEnv) : SessionInfo :=
  let isWayland :=
    (strToLower (e.xdgSessionType.getD "") == "wayland") || envTruthy e.waylandDisplay
  let xwaylandAvailable := isWayland && envTruthy e.display
  let desktopEnv := getLinuxDesktopEnv e
  let isGnome := isWayland && isGnomeDesktop desktopEnv
  ⟨isWayland, xwaylandAvailable, desktopEnv, isGnome⟩

/-- Result of a `spawnSync` call that did not throw: exit status and
captured stdout (`none` at the call site models a thrown spawn error). -/
structure SpawnSyncRes where
  status : Int
  stdout : String
deriving DecidableEq

/-- Model of `getXdotoolWindowClass` (local helper in `pasteLinux`): query the
active window class via xdotool; any failure yields `none`; the class is
lower-cased and trimmed, and an empty class becomes `none`. -/
def getXdotoolWindowClass (xdotoolExists : Bool) (si : SessionInfo)
    (res : Option SpawnSyncRes) : Option String :=
  if !xdotoolExists || (si.isWayland && !si.xwaylandAvailable) then none
  else
    match res with
    | none => none
    | some r =>
      if r.status = 0 then
        let className := strTrim (strToLower r.stdout)
        if className = "" then none else some className
      else none

/-- The fixed registry of terminal-emulator class identifiers
(`terminalClasses` in `pasteLinux.isTerminal`). -/
def terminalClasses : List String :=
  ["konsole", "gnome-terminal", "terminal", "kitty", "alacritty", "terminator",
   "xterm", "urxvt", "rxvt", "tilix", "terminology", "wezterm", "foot", "st",
   "yakuake"]

/-- The kdotool fallback branch of `isTerminal`: two-step query (active
window id, then its class name); every failure yields `false`. -/
def kdotoolTerminalCheck (kdotoolExists : Bool) (kActive : Option SpawnSyncRes)
    (kClass : String → Option SpawnSyncRes) : Bool :=
  if kdotoolExists then
    match kActive with
    | some wr =>
      if wr.status = 0 then
        let windowId := strTrim wr.stdout
        match kClass windowId with
        | some cr =>
          if cr.status = 0 then
            terminalClasses.any (fun term => strIncludes (strTrim (strToLower cr.stdout)) term)
          else false
        | none => false
      else false
    | none => false
  else false

/-- Model of `isTerminal` (local helper in `pasteLinux`): if the xdotool window
class is truthy, match it by substring against the registry; otherwise
fall back to the kdotool two-step query. -/
def isTerminal (xdoClass : Option String) (kdotoolExists : Bool)
    (kActive : Option SpawnSyncRes) (kClass : String → Option SpawnSyncRes) : Bool :=
  match xdoClass with
  | some cls =>
    if cls = "" then kdotoolTerminalCheck kdotoolExists kActive kClass
    else terminalClasses.any (fun term => strIncludes cls term)
  | none => kdotoolTerminalCheck kdotoolExists kActive kClass

/-- Model of `CACHE_TTL_MS`: TTL for both availability caches. -/
def CACHE_TTL_MS : Nat := 30000

/-- One entry of `commandAvailabilityCache`. -/
structure CacheEntry where
  exists_ : Bool
  expiresAt : Nat
deriving DecidableEq

/-- Lookup in the availability cache (JS `Map.get`). -/
def alistLookup : List (String × CacheEntry) → String → Option CacheEntry
  | [], _ => none
  | (k, v) :: t, cmd => if k = cmd then some v else alistLookup t cmd

/-- Update in the availability cache (JS `Map.set`: replace or append). -/
def alistSet : List (String × CacheEntry) → String → CacheEntry → List (String × CacheEntry)
  | [], cmd, v => [(cmd, v)]
  | (k, w) :: t, cmd, v =>
    if k = cmd then (cmd, v) :: t else (k, w) :: alistSet t cmd v

/-- Result of one `commandExists` call: the returned boolean, the updated
cache, and whether a probe subprocess was spawned. -/
structure CEResult where
  result : Bool
  state : List (String × CacheEntry)
  spawned : Bool
deriving DecidableEq

/-- The probe arm of `commandExists`: spawn `sh -c "command -v cmd"`.
The oracle `probe cmd` is `some b` when `spawnSync` returned with
`(status == 0) = b`, and `none` when the spawn threw (caught and recorded
as not available). -/
def probeStore (cache : List (String × CacheEntry)) (now : Nat)
    (probe : String → Option Bool) (cmd : String) : CEResult :=
  ⟨(probe cmd).getD false,
   alistSet cache cmd ⟨(probe cmd).getD false, now + CACHE_TTL_MS⟩, true⟩

/-- Model of `commandExists(cmd)`: serve an unexpired cache entry without spawning,
otherwise probe and store the answer with a fresh TTL. -/
def commandExists (cache : List (String × CacheEntry)) (now : Nat)
    (probe : String → Option Bool) (cmd : String) : CEResult :=
  match alistLookup cache cmd with
  | some en =>
    if now < en.expiresAt then ⟨en.exists_, cache, false⟩
    else probeStore cache now probe cmd
  | none => probeStore cache now probe cmd

/-- The record returned by `checkPasteTools` (optional Linux-only fields
are `none` on the other platforms). -/
structure PasteToolsInfo where
  platform : String
  available : Bool
  method : Option String
  requiresPermission : Bool
  tools : List String
  isWayland : Option Bool
  xwaylandAvailable : Option Bool
  recommendedInstall : Option String
deriving DecidableEq

/-- Result of one `checkPasteTools` call: the returned info, the updated
availability cache, and how many probe subprocesses were spawned. -/
structure PasteToolsResult where
  info : PasteToolsInfo
  cache : List (String × CacheEntry)
  spawns : Nat
deriving DecidableEq

/-- Model of `checkPasteTools()`: fixed records on darwin and win32; on Linux,
screen wtype/xdotool through the availability cache and report the
session-specific recommendation. -/
def checkPasteTools (platform : String) (e : LinuxEnv)
    (cache : List (String × CacheEntry)) (now : Nat)
    (probe : String → Option Bool) : PasteToolsResult :=
  if platform = "darwin" then
    ⟨⟨"darwin", true, some "applescript", true, [], none, none, none⟩, cache, 0⟩
  else if platform = "win32" then
    ⟨⟨"win32", true, some "powershell", false, [], none, none, none⟩, cache, 0⟩
  else
    let si := getLinuxSessionInfo e
    let canUseWtype := si.isWayland && !si.isGnome
    let canUseXdotool := !si.isWayland || si.xwaylandAvailable
    let wres := if canUseWtype then some (commandExists cache now probe "wtype") else none
    let cache1 := match wres with | some r => r.state | none => cache
    let s1 : Nat := match wres with | some r => if r.spawned then 1 else 0 | none => 0
    let wAvail := match wres with | some r => r.result | none => false
    let xres := if canUseXdotool then some (commandExists cache1 now probe "xdotool") else none
    let cache2 := match xres with | some r => r.state | none => cache1
    let s2 : Nat := match xres with | some r => if r.spawned then 1 else 0 | none => 0
    let xAvail := match xres with | some r => r.result | none => false
    let tools := (if wAvail then ["wtype"] else []) ++ (if xAvail then ["xdotool"] else [])
    let available := !tools.isEmpty
    let recommendedInstall : Option String :=
      if available then none
      else if !si.isWayland then some "xdotool"
      else if si.isGnome then (if si.xwaylandAvailable then some "xdotool" else none)
      else some "wtype"
    ⟨⟨"linux", available, if available then tools.head? else none, false, tools,
      some si.isWayland, some si.xwaylandAvailable, recommendedInstall⟩, cache2, s1 + s2⟩

/-- Platform-tuned delay tables (`PASTE_DELAYS` / `RESTORE_DELAYS`). -/
structure PlatformDelays where
  darwin : Nat
  win32_nircmd : Nat
  win32_pwsh : Nat
  linux : Nat
deriving DecidableEq

/-- Pre-keystroke delays (ms). -/
def PASTE_DELAYS : PlatformDelays := ⟨50, 30, 40, 0⟩

/-- Post-success clipboard restoration delays (ms). -/
def RESTORE_DELAYS : PlatformDelays := ⟨100, 80, 80, 200⟩

/-- Model of `setTimeout` duration racing the osascript keystroke in `pasteMacOS`. -/
def MAC_PASTE_TIMEOUT_MS : Nat := 3000

/-- Model of `setTimeout` duration racing the nircmd keystroke in `pasteWithNircmd`. -/
def NIRCMD_TIMEOUT_MS : Nat := 2000

/-- Model of `setTimeout` duration racing the PowerShell keystroke in
`pasteWithPowerShell`. -/
def POWERSHELL_TIMEOUT_MS : Nat := 5000

/-- Model of `setTimeout` duration racing each Linux tool in `pasteLinux.pasteWith`. -/
def LINUX_TOOL_TIMEOUT_MS : Nat := 1000

/-- Behaviour of one spawned delivery child, as raced against its timeout:
it exited with a code before the timeout, emitted a spawn `error` event,
or the timeout fired first. -/
inductive ProcOutcome where
  | exited (code : Int)
  | failed (msg : String)
  | timedOut
deriving DecidableEq

/-- Observable outcome of one delivery mechanism: success flag, surfaced
error message/code, scheduled clipboard restorations `(delayMs, text)`,
mechanisms attempted in order, and force-killed children
`(processName, timeoutMs)`. -/
structure MechResult where
  ok : Bool
  errMsg : Option String
  errCode : Option String
  restores : List (Nat × String)
  attempts : List String
  killed : List (String × Nat)
deriving DecidableEq

/-- Model of `pasteMacOS`: spawn osascript Cmd+V; on exit 0 schedule restoring the
original clipboard after 100ms; otherwise reject; on timeout SIGKILL the
child and reject. -/
def pasteMacOS (originalClipboard : String) (o : ProcOutcome) : MechResult :=
  match o with
  | .exited code =>
    if code = 0 then ⟨true, none, none, [(100, originalClipboard)], ["osascript"], []⟩
    else
      ⟨false,
       some ("Paste failed (code " ++ toString code ++
         "). Text is copied to clipboard - please paste manually with Cmd+V."),
       none, [], ["osascript"], []⟩
  | .failed m =>
    ⟨false,
     some ("Paste command failed: " ++ m ++
       ". Text is copied to clipboard - please paste manually with Cmd+V."),
     none, [], ["osascript"], []⟩
  | .timedOut =>
    ⟨false,
     some "Paste operation timed out. Text is copied to clipboard - please paste manually with Cmd+V.",
     none, [], ["osascript"], [("osascript", MAC_PASTE_TIMEOUT_MS)]⟩

/-- Model of `pasteWithPowerShell`: spawn the SendKeys script; on exit 0 schedule
restoration after `RESTORE_DELAYS.win32_pwsh`; otherwise reject; on
timeout SIGKILL the child and reject. -/
def pasteWithPowerShell (originalClipboard : String) (o : ProcOutcome) : MechResult :=
  match o with
  | .exited code =>
    if code = 0 then
      ⟨true, none, none, [(RESTORE_DELAYS.win32_pwsh, originalClipboard)], ["powershell"], []⟩
    else
      ⟨false,
       some ("Windows paste failed with code " ++ toString code ++
         ". Text is copied to clipboard - please paste manually with Ctrl+V."),
       none, [], ["powershell"], []⟩
  | .failed m =>
    ⟨false,
     some ("Windows paste failed: " ++ m ++
       ". Text is copied to clipboard - please paste manually with Ctrl+V."),
     none, [], ["powershell"], []⟩
  | .timedOut =>
    ⟨false,
     some "Paste operation timed out. Text is copied to clipboard - please paste manually with Ctrl+V.",
     none, [], ["powershell"], [("powershell.exe", POWERSHELL_TIMEOUT_MS)]⟩

/-- Model of `pasteWithNircmd`: spawn nircmd sendkeypress; on exit 0 schedule
restoration after `RESTORE_DELAYS.win32_nircmd`; on nonzero exit, spawn
error or timeout (with SIGKILL) fall back to `pasteWithPowerShell`, whose
result decides the call. -/
def pasteWithNircmd (originalClipboard : String) (onir ops : ProcOutcome) : MechResult :=
  match onir with
  | .exited code =>
    if code = 0 then
      ⟨true, none, none, [(RESTORE_DELAYS.win32_nircmd, originalClipboard)], ["nircmd"], []⟩
    else
      let r := pasteWithPowerShell originalClipboard ops
      { r with attempts := "nircmd" :: r.attempts }
  | .failed _ =>
    let r := pasteWithPowerShell originalClipboard ops
    { r with attempts := "nircmd" :: r.attempts }
  | .timedOut =>
    let r := pasteWithPowerShell originalClipboard ops
    { r with attempts := "nircmd" :: r.attempts,
             killed := ("nircmd", NIRCMD_TIMEOUT_MS) :: r.killed }

/-- Model of `pasteWindows`: use nircmd when its binary resolved on disk, otherwise
PowerShell is the sole path. -/
def pasteWindows (originalClipboard : String) (nircmdPath : Option String)
    (onir ops : ProcOutcome) : MechResult :=
  match nircmdPath with
  | some _ => pasteWithNircmd originalClipboard onir ops
  | none => pasteWithPowerShell originalClipboard ops

/-- Oracle inputs of one `pasteLinux` call: the (cached) availability view
at call time, the xdotool window-class `spawnSync` result, the kdotool
two-step results, and the behaviour of each spawned paste tool. -/
structure LinuxWorld where
  cmdExists : String → Bool
  xdoSpawn : Option SpawnSyncRes
  kActive : Option SpawnSyncRes
  kClass : String → Option SpawnSyncRes
  run : String → ProcOutcome

/-- One candidate delivery invocation. -/
structure Tool where
  cmd : String
  args : List String
deriving DecidableEq

/-- Everything `pasteLinux` computes before trying candidates: session
info, tool presence, window class, terminal flag, chord, inclusion flags,
the candidate list, and its availability-filtered form. -/
structure LinuxPlan where
  si : SessionInfo
  xdotoolExists : Bool
  wtypeExists : Bool
  xdoClass : Option String
  inTerminal : Bool
  pasteKeys : String
  canUseWtype : Bool
  canUseXdotool : Bool
  candidates : List Tool
  available : List Tool

/-- The candidate-selection phase of `pasteLinux`. -/
def linuxSetup (e : LinuxEnv) (w : LinuxWorld) : LinuxPlan :=
  let si := getLinuxSessionInfo e
  let xdotoolExists := w.cmdExists "xdotool"
  let wtypeExists := w.cmdExists "wtype"
  let xdoClass := getXdotoolWindowClass xdotoolExists si w.xdoSpawn
  let inTerminal := isTerminal xdoClass (w.cmdExists "kdotool") w.kActive w.kClass
  let pasteKeys := if inTerminal then "ctrl+shift+v" else "ctrl+v"
  let canUseWtype := si.isWayland && !si.isGnome
  let canUseXdotool := if si.isWayland then envTruthy xdoClass else xdotoolExists
  let candidates :=
    (if canUseWtype then
        [if inTerminal then
            Tool.mk "wtype" ["-M", "ctrl", "-M", "shift", "-k", "v", "-m", "shift", "-m", "ctrl"]
         else Tool.mk "wtype" ["-M", "ctrl", "-k", "v", "-m", "ctrl"]]
      else []) ++
    (if canUseXdotool then [Tool.mk "xdotool" ["key", pasteKeys]] else [])
  let available := candidates.filter (fun c => w.cmdExists c.cmd)
  ⟨si, xdotoolExists, wtypeExists, xdoClass, inTerminal, pasteKeys,
   canUseWtype, canUseXdotool, candidates, available⟩

/-- The terminal failure message built by `pasteLinux` when every
candidate is exhausted, tailored to the session state. -/
def linuxExhaustedMsg (si : SessionInfo) (xdotoolExists wtypeExists : Bool)
    (xdoClass : Option String) : String :=
  if si.isWayland then
    if si.isGnome then
      if !si.xwaylandAvailable then
        "Clipboard copied, but GNOME Wayland blocks automatic pasting. Please paste manually with Ctrl+V."
      else if !xdotoolExists then
        "Clipboard copied, but automatic pasting on GNOME Wayland requires xdotool for XWayland apps. Please install xdotool or paste manually with Ctrl+V."
      else if !(envTruthy xdoClass) then
        "Clipboard copied, but the active app isn\x27t running under XWayland. Please paste manually with Ctrl+V."
      else
        "Clipboard copied, but paste simulation failed via XWayland. Please paste manually with Ctrl+V."
    else if !wtypeExists then
      if !si.xwaylandAvailable then
        "Clipboard copied, but automatic pasting on Wayland requires wtype. Please install wtype or paste manually with Ctrl+V."
      else if !xdotoolExists then
        "Clipboard copied, but automatic pasting on Wayland requires wtype (Wayland apps) or xdotool (XWayland apps). Please install one or paste manually with Ctrl+V."
      else if !(envTruthy xdoClass) then
        "Clipboard copied, but the active app isn\x27t running under XWayland. Please install wtype for Wayland apps or paste manually with Ctrl+V."
      else
        "Clipboard copied, but paste simulation failed via XWayland. Please paste manually with Ctrl+V."
    else
      "Clipboard copied, but paste simulation failed on Wayland. Ensure your compositor supports the virtual keyboard protocol or paste manually with Ctrl+V." ++
        (if si.xwaylandAvailable && xdotoolExists then
          " If this is an XWayland app, xdotool can also be used."
         else "")
  else
    "Clipboard copied, but paste simulation failed on X11. Please install xdotool or paste manually with Ctrl+V."

/-- Model of `pasteLinux.pasteWith(tool)`: spawn the tool; exit 0 schedules
restoration after 200ms; nonzero exit or spawn error rejects; a fired
timeout SIGKILLs the child and rejects. -/
def runTool (originalClipboard : String) (w : LinuxWorld) (t : Tool) : MechResult :=
  match w.run t.cmd with
  | .exited code =>
    if code = 0 then ⟨true, none, none, [(200, originalClipboard)], [t.cmd], []⟩
    else ⟨false, some (t.cmd ++ " exited with code " ++ toString code), none, [], [t.cmd], []⟩
  | .failed m => ⟨false, some m, none, [], [t.cmd], []⟩
  | .timedOut =>
    ⟨false, some ("Paste with " ++ t.cmd ++ " timed out after 1 second"), none, [],
     [t.cmd], [(t.cmd, LINUX_TOOL_TIMEOUT_MS)]⟩

/-- The fallback loop of `pasteLinux`: try each available tool in order,
returning on the first success, otherwise the exhausted failure. -/
def tryTools (originalClipboard : String) (w : LinuxWorld) (failRes : MechResult) :
    List Tool → MechResult
  | [] => failRes
  | t :: rest =>
    let r := runTool originalClipboard w t
    if r.ok then r
    else
      let r2 := tryTools originalClipboard w failRes rest
      { r2 with attempts := t.cmd :: r2.attempts, killed := r.killed ++ r2.killed }

/-- Model of `pasteLinux`: build the candidate list, try the available tools, and
on exhaustion raise the tailored `PASTE_SIMULATION_FAILED` error. -/
def pasteLinux (originalClipboard : String) (e : LinuxEnv) (w : LinuxWorld) : MechResult :=
  let p := linuxSetup e w
  let failRes : MechResult :=
    ⟨false, some (linuxExhaustedMsg p.si p.xdotoolExists p.wtypeExists p.xdoClass),
     some "PASTE_SIMULATION_FAILED", [], [], []⟩
  tryTools originalClipboard w failRes p.available

/-- Oracle inputs of one `pasteText` call: platform, the clipboard text
read at call start, the resolved accessibility-permission answer (its
internals are modelled by `checkAccessibilityPermissions`), the resolved
nircmd path, the behaviour of each platform child, and the Linux
environment/world. -/
structure PasteWorld where
  platform : String
  originalClipboard : String
  hasPermissions : Bool
  macRun : ProcOutcome
  nircmdPath : Option String
  nirRun : ProcOutcome
  psRun : ProcOutcome
  linuxEnv : LinuxEnv
  lw : LinuxWorld

/-- Observable outcome of one `pasteText` call. `clipboardWriteAtStart`
is the text unconditionally written to the clipboard before any delivery
attempt (and before the macOS permission check). -/
structure PasteTextResult where
  ok : Bool
  method : String
  errMsg : Option String
  errCode : Option String
  clipboardWriteAtStart : String
  restores : List (Nat × String)
  attempts : List String
  killed : List (String × Nat)
deriving DecidableEq

/-- Lift a mechanism result into a `pasteText` result. -/
def liftMech (text method : String) (r : MechResult) : PasteTextResult :=
  ⟨r.ok, method, r.errMsg, r.errCode, text, r.restores, r.attempts, r.killed⟩

/-- Model of `pasteText(text)`: snapshot the clipboard, write `text`, then dispatch
per platform (darwin gated on accessibility permission, win32 on the
nircmd path, everything else through the Linux tools). -/
def pasteText (text : String) (w : PasteWorld) : PasteTextResult :=
  if w.platform = "darwin" then
    if w.hasPermissions then
      liftMech text "applescript" (pasteMacOS w.originalClipboard w.macRun)
    else
      ⟨false, "applescript",
       some "Accessibility permissions required for automatic pasting. Text has been copied to clipboard - please paste manually with Cmd+V.",
       none, text, [], [], []⟩
  else if w.platform = "win32" then
    liftMech text (if w.nircmdPath.isSome then "nircmd" else "powershell")
      (pasteWindows w.originalClipboard w.nircmdPath w.nirRun w.psRun)
  else
    liftMech text "linux-tools" (pasteLinux w.originalClipboard w.linuxEnv w.lw)

/-- Clipboard content after the scheduled restorations have run, starting
from the text `pasteText` wrote at call start. -/
def clipboardAfter (startText : String) (restores : List (Nat × String)) : String :=
  restores.foldl (fun _ p => p.2) startText

/-- Behaviour of the osascript permission probe in
`checkAccessibilityPermissions`: it exited (with captured stderr) or its
spawn failed. -/
inductive AccessProbe where
  | exited (code : Int) (stderr : String)
  | spawnError
deriving DecidableEq

/-- Model of `accessibilityCache`: cached answer (`none` before the first probe)
and its expiry instant. -/
structure AccessCache where
  value : Option Bool
  expiresAt : Nat
deriving DecidableEq

/-- Observable outcome of one `checkAccessibilityPermissions` call:
returned value, updated cache, whether a probe subprocess was spawned,
and how many remediation dialogs were triggered. -/
structure AccessResult where
  value : Bool
  cache : AccessCache
  spawned : Bool
  dialogCount : Nat
deriving DecidableEq

/-- The probe arm of `checkAccessibilityPermissions`: exit 0 grants;
nonzero exit denies and fires `showAccessibilityDialog` once; a spawn
error denies without any dialog.  Either way the cache is refreshed. -/
def accessProbeRun (now : Nat) (probe : AccessProbe) : AccessResult :=
  match probe with
  | .exited code _ =>
    ⟨decide (code = 0), ⟨some (decide (code = 0)), now + CACHE_TTL_MS⟩, true,
     if code = 0 then 0 else 1⟩
  | .spawnError => ⟨false, ⟨some false, now + CACHE_TTL_MS⟩, true, 0⟩

/-- Model of `checkAccessibilityPermissions()`: an unexpired non-null cache entry
is returned with no subprocess and no dialog; otherwise the probe runs. -/
def checkAccessibilityPermissions (c : AccessCache) (now : Nat)
    (probe : AccessProbe) : AccessResult :=
  if now < c.expiresAt then
    match c.value with
    | some v => ⟨v, c, false, 0⟩
    | none => accessProbeRun now probe
  else accessProbeRun now probe

/-! Helper lemmas about the individual delivery mechanisms. -/

theorem pasteMacOS_ok_restores (orig : String) (o : ProcOutcome)
    (h : (pasteMacOS orig o).ok = true) :
    (pasteMacOS orig o).restores = [(100, orig)] := by
  cases o with
  | exited code =>
    by_cases hc : code = 0 <;> simp [pasteMacOS, hc] at h ⊢
  | failed m => simp [pasteMacOS] at h
  | timedOut => simp [pasteMacOS] at h

theorem pasteWithPowerShell_ok_restores (orig : String) (o : ProcOutcome)
    (h : (pasteWithPowerShell orig o).ok = true) :
    (pasteWithPowerShell orig o).restores = [(80, orig)] := by
  cases o with
  | exited code =>
    by_cases hc : code = 0 <;> simp [pasteWithPowerShell, RESTORE_DELAYS, hc] at h ⊢
  | failed m => simp [pasteWithPowerShell] at h
  | timedOut => simp [pasteWithPowerShell] at h

theorem pasteWithNircmd_ok_restores (orig : String) (onir ops : ProcOutcome)
    (h : (pasteWithNircmd orig onir ops).ok = true) :
    (pasteWithNircmd orig onir ops).restores = [(80, orig)] := by
  cases onir with
  | exited code =>
    by_cases hc : code = 0
    · simp [pasteWithNircmd, RESTORE_DELAYS, hc]
    · simp [pasteWithNircmd, hc] at h ⊢
      exact pasteWithPowerShell_ok_restores orig ops h
  | failed m =>
    simp [pasteWithNircmd] at h ⊢
    exact pasteWithPowerShell_ok_restores orig ops h
  | timedOut =>
    simp [pasteWithNircmd] at h ⊢
    exact pasteWithPowerShell_ok_restores orig ops h

theorem pasteWindows_ok_restores (orig : String) (p : Option String) (onir ops : ProcOutcome)
    (h : (pasteWindows orig p onir ops).ok = true) :
    (pasteWindows orig p onir ops).restores = [(80, orig)] := by
  cases p with
  | some q =>
    simp [pasteWindows] at h ⊢
    exact pasteWithNircmd_ok_restores orig onir ops h
  | none =>
    simp [pasteWindows] at h ⊢
    exact pasteWithPowerShell_ok_restores orig ops h

theorem runTool_ok_restores (orig : String) (w : LinuxWorld) (t : Tool)
    (h : (runTool orig w t).ok = true) :
    (runTool orig w t).restores = [(200, orig)] := by
  cases hr : w.run t.cmd with
  | exited code =>
    by_cases hc : code = 0 <;> simp [runTool, hr, hc] at h ⊢
  | failed m => simp [runTool, hr] at h
  | timedOut => simp [runTool, hr] at h

theorem tryTools_ok_restores (orig : String) (w : LinuxWorld) (failRes : MechResult)
    (hf : failRes.ok = false) :
    ∀ l, (tryTools orig w failRes l).ok = true →
      (tryTools orig w failRes l).restores = [(200, orig)] := by
  intro l
  induction l with
  | nil =>
    intro h
    rw [tryTools] at h
    rw [hf] at h
    exact absurd h (by simp)
  | cons t rest ih =>
    intro h
    rw [tryTools] at h ⊢
    by_cases hr : (runTool orig w t).ok = true
    · simp only [hr, if_true] at h ⊢
      exact runTool_ok_restores orig w t hr
    · simp only [hr, if_false, Bool.false_eq_true] at h ⊢
      exact ih h

theorem pasteLinux_ok_restores (orig : String) (e : LinuxEnv) (w : LinuxWorld)
    (h : (pasteLinux orig e w).ok = true) :
    (pasteLinux orig e w).restores = [(200, orig)] := by
  exact tryTools_ok_restores orig w _ rfl _ h

theorem pasteMacOS_fail (orig : String) (o : ProcOutcome)
    (h : (pasteMacOS orig o).ok = false) :
    (pasteMacOS orig o).restores = [] ∧ (pasteMacOS orig o).errMsg.isSome = true := by
  cases o with
  | exited code =>
    by_cases hc : code = 0 <;> simp [pasteMacOS, hc] at h ⊢
  | failed m => simp [pasteMacOS]
  | timedOut => simp [pasteMacOS]

theorem pasteWithPowerShell_fail (orig : String) (o : ProcOutcome)
    (h : (pasteWithPowerShell orig o).ok = false) :
    (pasteWithPowerShell orig o).restores = [] ∧
      (pasteWithPowerShell orig o).errMsg.isSome = true := by
  cases o with
  | exited code =>
    by_cases hc : code = 0 <;> simp [pasteWithPowerShell, hc] at h ⊢
  | failed m => simp [pasteWithPowerShell]
  | timedOut => simp [pasteWithPowerShell]

theorem pasteWithNircmd_fail (orig : String) (onir ops : ProcOutcome)
    (h : (pasteWithNircmd orig onir ops).ok = false) :
    (pasteWithNircmd orig onir ops).restores = [] ∧
      (pasteWithNircmd orig onir ops).errMsg.isSome = true := by
  cases onir with
  | exited code =>
    by_cases hc : code = 0
    · simp [pasteWithNircmd, hc] at h
    · simp [pasteWithNircmd, hc] at h ⊢
      exact pasteWithPowerShell_fail orig ops h
  | failed m =>
    simp [pasteWithNircmd] at h ⊢
    exact pasteWithPowerShell_fail orig ops h
  | timedOut =>
    simp [pasteWithNircmd] at h ⊢
    exact pasteWithPowerShell_fail orig ops h

theorem pasteWindows_fail (orig : String) (p : Option String) (onir ops : ProcOutcome)
    (h : (pasteWindows orig p onir ops).ok = false) :
    (pasteWindows orig p onir ops).restores = [] ∧
      (pasteWindows orig p onir ops).errMsg.isSome = true := by
  cases p with
  | some q =>
    simp [pasteWindows] at h ⊢
    exact pasteWithNircmd_fail orig onir ops h
  | none =>
    simp [pasteWindows] at h ⊢
    exact pasteWithPowerShell_fail orig ops h

theorem runTool_fail (orig : String) (w : LinuxWorld) (t : Tool)
    (h : (runTool orig w t).ok = false) :
    (runTool orig w t).restores = [] ∧ (runTool orig w t).errMsg.isSome = true := by
  cases hr : w.run t.cmd with
  | exited code =>
    by_cases hc : code = 0 <;> simp [runTool, hr, hc] at h ⊢
  | failed m => simp [runTool, hr]
  | timedOut => simp [runTool, hr]

theorem tryTools_fail (orig : String) (w : LinuxWorld) (failRes : MechResult)
    (hr0 : failRes.restores = []) (hm0 : failRes.errMsg.isSome = true) :
    ∀ l, (tryTools orig w failRes l).ok = false →
      (tryTools orig w failRes l).restores = [] ∧
        (tryTools orig w failRes l).errMsg.isSome = true := by
  intro l
  induction l with
  | nil =>
    intro _
    rw [tryTools]
    exact ⟨hr0, hm0⟩
  | cons t rest ih =>
    intro h
    rw [tryTools] at h ⊢
    by_cases hr : (runTool orig w t).ok = true
    · simp only [hr, if_true] at h
      exact absurd h (by simp)
    · simp only [hr, if_false, Bool.false_eq_true] at h ⊢
      exact ih h

theorem pasteLinux_fail (orig : String) (e : LinuxEnv) (w : LinuxWorld)
    (h : (pasteLinux orig e w).ok = false) :
    (pasteLinux orig e w).restores = [] ∧ (pasteLinux orig e w).errMsg.isSome = true := by
  refine tryTools_fail orig w _ ?_ ?_ _ h <;> rfl

theorem pasteText_writes_text (text : String) (w : PasteWorld) :
    (pasteText text w).clipboardWriteAtStart = text := by
  by_cases hd : w.platform = "darwin"
  · cases hp : w.hasPermissions <;> simp [pasteText, liftMech, hd, hp]
  · by_cases hw : w.platform = "win32" <;> simp [pasteText, liftMech, hd, hw]

/-- C1: every `pasteText` call that succeeds schedules exactly one
clipboard restoration, writing back the clipboard content read at call
start after the succeeding mechanism's post-restore delay (100ms on
macOS, 80ms on Windows, 200ms on Linux), so once that delay elapses the
delivered text is no longer on the clipboard. -/
theorem pasteText_success_restores_original_clipboard (text : String) (w : PasteWorld)
    (h : (pasteText text w).ok = true) :
    (pasteText text w).restores =
      [((if w.platform = "darwin" then 100 else if w.platform = "win32" then 80 else 200 : Nat),
        w.originalClipboard)] ∧
    clipboardAfter (pasteText text w).clipboardWriteAtStart (pasteText text w).restores =
      w.originalClipboard := by
  have main : (pasteText text w).restores =
      [((if w.platform = "darwin" then 100 else if w.platform = "win32" then 80 else 200 : Nat),
        w.originalClipboard)] := by
    by_cases hd : w.platform = "darwin"
    · cases hp : w.hasPermissions
      · simp [pasteText, hd, hp] at h
      · simp only [pasteText, hd, hp, if_true, if_pos rfl] at h ⊢
        simp only [liftMech] at h ⊢
        exact pasteMacOS_ok_restores w.originalClipboard w.macRun h
    · by_cases hw : w.platform = "win32"
      · simp only [pasteText, hd, hw, if_false, if_true, if_pos rfl, if_neg hd] at h ⊢
        simp only [liftMech] at h ⊢
        exact pasteWindows_ok_restores w.originalClipboard w.nircmdPath w.nirRun w.psRun h
      · simp only [pasteText, if_neg hd, if_neg hw] at h ⊢
        simp only [liftMech] at h ⊢
        exact pasteLinux_ok_restores w.originalClipboard w.linuxEnv w.lw h
  refine ⟨main, ?_⟩
  rw [main]
  simp [clipboardAfter]

/-- Concrete instantiation of C1 (macOS, permission granted, osascript
exits 0). -/
def c1World : PasteWorld :=
  ⟨"darwin", "previous clipboard", true, .exited 0, none, .exited 0, .exited 0,
   ⟨none, none, none, none, none, none⟩,
   ⟨fun _ => false, none, none, fun _ => none, fun _ => .exited 0⟩⟩

theorem pasteText_success_restores_original_clipboard_witness :
    (pasteText "hello world" c1World).ok = true ∧
      ((pasteText "hello world" c1World).restores =
          [((if c1World.platform = "darwin" then 100
             else if c1World.platform = "win32" then 80 else 200 : Nat),
            c1World.originalClipboard)] ∧
        clipboardAfter (pasteText "hello world" c1World).clipboardWriteAtStart
            (pasteText "hello world" c1World).restores = c1World.originalClipboard) :=
  ⟨rfl, pasteText_success_restores_original_clipboard "hello world" c1World rfl⟩

/-- C2: every `pasteText` call that fails (permission denied, terminal
mechanism failure, or all Linux candidates exhausted) surfaces an error
while the delivered text is still on the clipboard: the text was written
before any delivery attempt, no restoration is ever scheduled on a
failure path, and so the clipboard still holds the delivered text. -/
theorem pasteText_failure_leaves_text_on_clipboard (text : String) (w : PasteWorld)
    (h : (pasteText text w).ok = false) :
    (pasteText text w).clipboardWriteAtStart = text ∧
    (pasteText text w).restores = [] ∧
    (pasteText text w).errMsg.isSome = true ∧
    clipboardAfter (pasteText text w).clipboardWriteAtStart (pasteText text w).restores =
      text := by
  have hstart := pasteText_writes_text text w
  have main : (pasteText text w).restores = [] ∧ (pasteText text w).errMsg.isSome = true := by
    by_cases hd : w.platform = "darwin"
    · cases hp : w.hasPermissions
      · simp [pasteText, hd, hp]
      · simp only [pasteText, hd, hp, if_true, if_pos rfl] at h ⊢
        simp only [liftMech] at h ⊢
        exact pasteMacOS_fail w.originalClipboard w.macRun h
    · by_cases hw : w.platform = "win32"
      · simp only [pasteText, if_neg hd, hw, if_pos rfl] at h ⊢
        simp only [liftMech] at h ⊢
        exact pasteWindows_fail w.originalClipboard w.nircmdPath w.nirRun w.psRun h
      · simp only [pasteText, if_neg hd, if_neg hw] at h ⊢
        simp only [liftMech] at h ⊢
        exact pasteLinux_fail w.originalClipboard w.linuxEnv w.lw h
  refine ⟨hstart, main.1, main.2, ?_⟩
  rw [main.1, hstart]
  simp [clipboardAfter]

/-- Concrete instantiation of C2 (macOS, accessibility permission
denied). -/
def c2World : PasteWorld :=
  ⟨"darwin", "previous clipboard", false, .exited 0, none, .exited 0, .exited 0,
   ⟨none, none, none, none, none, none⟩,
   ⟨fun _ => false, none, none, fun _ => none, fun _ => .exited 0⟩⟩

theorem pasteText_failure_leaves_text_on_clipboard_witness :
    (pasteText "dictated text" c2World).ok = false ∧
      ((pasteText "dictated text" c2World).clipboardWriteAtStart = "dictated text" ∧
        (pasteText "dictated text" c2World).restores = [] ∧
        (pasteText "dictated text" c2World).errMsg.isSome = true ∧
        clipboardAfter (pasteText "dictated text" c2World).clipboardWriteAtStart
            (pasteText "dictated text" c2World).restores = "dictated text") :=
  ⟨rfl, pasteText_failure_leaves_text_on_clipboard "dictated text" c2World rfl⟩

/-- The C3 scenario environment: Wayland session, Gnome desktop, no
bridge display variable set. -/
def c3Env : LinuxEnv := ⟨some "wayland", none, none, some "GNOME", none, none⟩

/-- The C3 scenario world: xdotool absent, wtype present. -/
def c3World : LinuxWorld :=
  ⟨fun c => c == "wtype", none, none, fun _ => none, fun _ => .exited 0⟩

/-- C3: on Linux with a Wayland session, a Gnome desktop, no bridge
display variable, xdotool absent and wtype present, the candidate list is
empty (wtype excluded by Gnome, xdotool excluded for lack of a bridge)
and the call fails with the GNOME-Wayland-block message, which contains
no install suggestion. -/
theorem gnome_wayland_no_bridge_empty_candidates :
    (linuxSetup c3Env c3World).wtypeExists = true ∧
    (linuxSetup c3Env c3World).xdotoolExists = false ∧
    (linuxSetup c3Env c3World).canUseWtype = false ∧
    (linuxSetup c3Env c3World).canUseXdotool = false ∧
    (linuxSetup c3Env c3World).candidates = [] ∧
    (pasteLinux "orig" c3Env c3World).ok = false ∧
    (pasteLinux "orig" c3Env c3World).attempts = [] ∧
    (pasteLinux "orig" c3Env c3World).errMsg =
      some "Clipboard copied, but GNOME Wayland blocks automatic pasting. Please paste manually with Ctrl+V." ∧
    (pasteLinux "orig" c3Env c3World).errCode = some "PASTE_SIMULATION_FAILED" ∧
    strIncludes
      (strToLower "Clipboard copied, but GNOME Wayland blocks automatic pasting. Please paste manually with Ctrl+V.")
      "install" = false := by
  decide

/-- The C10 scenario environment: pure X11 session. -/
def c10Env : LinuxEnv := ⟨none, none, some ":0", none, none, none⟩

/-- The C10 scenario world: xdotool present and reporting the focused
window class "Steam". -/
def c10World : LinuxWorld :=
  ⟨fun c => c == "xdotool", some ⟨0, "Steam"⟩, none, fun _ => none, fun _ => .exited 0⟩

/-- C10: the registry contains the two-character entry "st" and matching
is by substring, so the focused-window class "steam" classifies as a
terminal and `pasteText` on Linux selects the three-key Ctrl+Shift+V
chord instead of Ctrl+V for this non-terminal application. -/
theorem steam_classified_as_terminal_chord :
    ("st" ∈ terminalClasses) ∧
    strIncludes "steam" "st" = true ∧
    isTerminal (some "steam") false none (fun _ => none) = true ∧
    (linuxSetup c10Env c10World).xdoClass = some "steam" ∧
    (linuxSetup c10Env c10World).inTerminal = true ∧
    (linuxSetup c10Env c10World).pasteKeys = "ctrl+shift+v" ∧
    (linuxSetup c10Env c10World).available =
      [⟨"xdotool", ["key", "ctrl+shift+v"]⟩] ∧
    (pasteLinux "orig" c10Env c10World).attempts = ["xdotool"] := by
  decide

/-- C4: each delivery mechanism is raced against its per-mechanism
timeout (1s Linux tools, 2s nircmd, 3s osascript, 5s PowerShell); when
the timeout fires the child is force-terminated and the call proceeds to
the next candidate (nircmd falls back to PowerShell, the Linux loop
advances) or to a typed failure (osascript, PowerShell). -/
theorem per_mechanism_timeouts_kill_and_advance :
    LINUX_TOOL_TIMEOUT_MS = 1000 ∧ NIRCMD_TIMEOUT_MS = 2000 ∧
    MAC_PASTE_TIMEOUT_MS = 3000 ∧ POWERSHELL_TIMEOUT_MS = 5000 ∧
    (∀ orig : String, (pasteMacOS orig .timedOut).ok = false ∧
        (pasteMacOS orig .timedOut).errMsg.isSome = true ∧
        (pasteMacOS orig .timedOut).killed = [("osascript", MAC_PASTE_TIMEOUT_MS)]) ∧
    (∀ (orig : String) (ops : ProcOutcome),
        (pasteWithNircmd orig .timedOut ops).killed =
          ("nircmd", NIRCMD_TIMEOUT_MS) :: (pasteWithPowerShell orig ops).killed ∧
        (pasteWithNircmd orig .timedOut ops).attempts =
          "nircmd" :: (pasteWithPowerShell orig ops).attempts ∧
        (pasteWithNircmd orig .timedOut ops).ok = (pasteWithPowerShell orig ops).ok) ∧
    (∀ orig : String, (pasteWithPowerShell orig .timedOut).ok = false ∧
        (pasteWithPowerShell orig .timedOut).errMsg.isSome = true ∧
        (pasteWithPowerShell orig .timedOut).killed =
          [("powershell.exe", POWERSHELL_TIMEOUT_MS)]) ∧
    (∀ (orig : String) (w : LinuxWorld) (failRes : MechResult) (t : Tool) (rest : List Tool),
        w.run t.cmd = .timedOut →
        (tryTools orig w failRes (t :: rest)).ok = (tryTools orig w failRes rest).ok ∧
        (tryTools orig w failRes (t :: rest)).attempts =
          t.cmd :: (tryTools orig w failRes rest).attempts ∧
        (tryTools orig w failRes (t :: rest)).killed =
          (t.cmd, LINUX_TOOL_TIMEOUT_MS) :: (tryTools orig w failRes rest).killed) := by
  refine ⟨rfl, rfl, rfl, rfl, ?_, ?_, ?_, ?_⟩
  · intro orig
    simp [pasteMacOS]
  · intro orig ops
    simp [pasteWithNircmd]
  · intro orig
    simp [pasteWithPowerShell]
  · intro orig w failRes t rest hto
    have hr : (runTool orig w t).ok = false := by simp [runTool, hto]
    rw [tryTools]
    simp only [hr, if_false, Bool.false_eq_true]
    exact ⟨trivial, trivial, by simp [runTool, hto]⟩

/-- A Linux tool whose child hangs past the 1s timeout (for the C4
witness). -/
def c4Tool : Tool := ⟨"xdotool", ["key", "ctrl+v"]⟩

/-- A Linux world in which every spawned tool hits its timeout. -/
def c4World : LinuxWorld := ⟨fun _ => true, none, none, fun _ => none, fun _ => .timedOut⟩

/-- A stand-in exhausted-failure result for the C4 witness. -/
def c4Fail : MechResult := ⟨false, some "exhausted", none, [], [], []⟩

theorem per_mechanism_timeouts_kill_and_advance_witness :
    c4World.run c4Tool.cmd = .timedOut ∧
    (tryTools "orig" c4World c4Fail (c4Tool :: [])).killed =
      (c4Tool.cmd, LINUX_TOOL_TIMEOUT_MS) :: (tryTools "orig" c4World c4Fail []).killed :=
  ⟨rfl,
   (per_mechanism_timeouts_kill_and_advance.2.2.2.2.2.2.2 "orig" c4World c4Fail c4Tool []
      rfl).2.2⟩

/-- C7: on Windows, when the nircmd binary does not resolve, PowerShell
is the sole executed mechanism; when nircmd resolves but exits nonzero,
errors on spawn or times out, PowerShell is attempted next within the
same call and determines the call's outcome. -/
theorem windows_powershell_fallback :
    (∀ (orig : String) (onir ops : ProcOutcome),
        pasteWindows orig none onir ops = pasteWithPowerShell orig ops) ∧
    (∀ (orig : String) (ops : ProcOutcome),
        (pasteWithPowerShell orig ops).attempts = ["powershell"]) ∧
    (∀ (orig p : String) (c : Int) (ops : ProcOutcome), c ≠ 0 →
        pasteWindows orig (some p) (.exited c) ops =
          { pasteWithPowerShell orig ops with
              attempts := "nircmd" :: (pasteWithPowerShell orig ops).attempts }) ∧
    (∀ (orig p m : String) (ops : ProcOutcome),
        pasteWindows orig (some p) (.failed m) ops =
          { pasteWithPowerShell orig ops with
              attempts := "nircmd" :: (pasteWithPowerShell orig ops).attempts }) ∧
    (∀ (orig p : String) (ops : ProcOutcome),
        pasteWindows orig (some p) .timedOut ops =
          { pasteWithPowerShell orig ops with
              attempts := "nircmd" :: (pasteWithPowerShell orig ops).attempts,
              killed := ("nircmd", NIRCMD_TIMEOUT_MS) :: (pasteWithPowerShell orig ops).killed }) := by
  refine ⟨?_, ?_, ?_, ?_, ?_⟩
  · intro orig onir ops
    rfl
  · intro orig ops
    cases ops with
    | exited c => by_cases hc : c = 0 <;> simp [pasteWithPowerShell, hc]
    | failed m => simp [pasteWithPowerShell]
    | timedOut => simp [pasteWithPowerShell]
  · intro orig p c ops hc
    simp [pasteWindows, pasteWithNircmd, hc]
  · intro orig p m ops
    rfl
  · intro orig p ops
    rfl

theorem windows_powershell_fallback_witness :
    ((1 : Int) ≠ 0) ∧
    pasteWindows "orig" (some "nircmd.exe") (.exited 1) (.exited 0) =
      { pasteWithPowerShell "orig" (.exited 0) with
          attempts := "nircmd" :: (pasteWithPowerShell "orig" (.exited 0)).attempts } :=
  ⟨by decide,
   windows_powershell_fallback.2.2.1 "orig" "nircmd.exe" 1 (.exited 0) (by decide)⟩

theorem commandExists_hit (cache : List (String × CacheEntry)) (now : Nat)
    (probe : String → Option Bool) (cmd : String) (en : CacheEntry)
    (h1 : alistLookup cache cmd = some en) (h2 : now < en.expiresAt) :
    commandExists cache now probe cmd = ⟨en.exists_, cache, false⟩ := by
  unfold commandExists
  rw [h1]
  simp [h2]

theorem commandExists_miss (cache : List (String × CacheEntry)) (now : Nat)
    (probe : String → Option Bool) (cmd : String)
    (h : alistLookup cache cmd = none) :
    commandExists cache now probe cmd = probeStore cache now probe cmd := by
  unfold commandExists
  rw [h]

/-- C5: `commandExists` probes at most once per TTL window — an unexpired
cache entry is returned without spawning, a call at or after expiry
re-probes, and a probe spawn failure is recorded and returned as not
available; consequently `checkPasteTools()` called twice within the TTL
window under an unchanged environment returns an identical record with no
second probe spawn. -/
theorem commandExists_ttl_checkPasteTools_idempotent :
    (∀ (cache : List (String × CacheEntry)) (now : Nat) (probe : String → Option Bool)
        (cmd : String) (en : CacheEntry),
        alistLookup cache cmd = some en → now < en.expiresAt →
        commandExists cache now probe cmd = ⟨en.exists_, cache, false⟩) ∧
    (∀ (cache : List (String × CacheEntry)) (now : Nat) (probe : String → Option Bool)
        (cmd : String) (en : CacheEntry),
        alistLookup cache cmd = some en → en.expiresAt ≤ now →
        (commandExists cache now probe cmd).spawned = true ∧
        (commandExists cache now probe cmd).result = (probe cmd).getD false) ∧
    (∀ (cache : List (String × CacheEntry)) (now : Nat) (probe : String → Option Bool)
        (cmd : String),
        alistLookup cache cmd = none → probe cmd = none →
        commandExists cache now probe cmd =
          ⟨false, alistSet cache cmd ⟨false, now + CACHE_TTL_MS⟩, true⟩) ∧
    (∀ (e : LinuxEnv) (probe : String → Option Bool) (t1 t2 : Nat),
        t2 < t1 + CACHE_TTL_MS →
        (checkPasteTools "linux" e (checkPasteTools "linux" e [] t1 probe).cache t2 probe).info =
          (checkPasteTools "linux" e [] t1 probe).info ∧
        (checkPasteTools "linux" e (checkPasteTools "linux" e [] t1 probe).cache t2 probe).spawns =
          0) := by
  refine ⟨commandExists_hit, ?_, ?_, ?_⟩
  · intro cache now probe cmd en h1 h2
    have hn : ¬ now < en.expiresAt := by omega
    unfold commandExists
    rw [h1]
    simp [hn, probeStore]
  · intro cache now probe cmd h1 h2
    rw [commandExists_miss cache now probe cmd h1]
    simp [probeStore, h2]
  · intro e probe t1 t2 h2
    rcases hsi : getLinuxSessionInfo e with ⟨iw, xa, de, ig⟩
    cases iw <;> cases xa <;> cases ig <;>
      simp_all [checkPasteTools, commandExists, probeStore, alistLookup, alistSet, CACHE_TTL_MS]

/-- A pure-X11 environment for the C5 witness. -/
def c5Env : LinuxEnv := ⟨none, none, some ":0", none, none, none⟩

/-- A probe oracle that reports every tool as present. -/
def c5Probe : String → Option Bool := fun _ => some true

/-- A probe oracle whose spawn always throws. -/
def c5FailProbe : String → Option Bool := fun _ => none

theorem commandExists_ttl_checkPasteTools_idempotent_witness :
    (alistLookup [("xdotool", ⟨true, 10⟩)] "xdotool" = some ⟨true, 10⟩ ∧ 5 < 10 ∧
      commandExists [("xdotool", ⟨true, 10⟩)] 5 c5Probe "xdotool" =
        ⟨true, [("xdotool", ⟨true, 10⟩)], false⟩) ∧
    ((commandExists [("xdotool", ⟨true, 10⟩)] 10 c5Probe "xdotool").spawned = true ∧
      (commandExists [("xdotool", ⟨true, 10⟩)] 10 c5Probe "xdotool").result =
        (c5Probe "xdotool").getD false) ∧
    (commandExists [] 0 c5FailProbe "wtype" =
      ⟨false, alistSet [] "wtype" ⟨false, 0 + CACHE_TTL_MS⟩, true⟩) ∧
    ((checkPasteTools "linux" c5Env (checkPasteTools "linux" c5Env [] 0 c5Probe).cache
        100 c5Probe).info = (checkPasteTools "linux" c5Env [] 0 c5Probe).info ∧
      (checkPasteTools "linux" c5Env (checkPasteTools "linux" c5Env [] 0 c5Probe).cache
        100 c5Probe).spawns = 0) :=
  ⟨⟨by decide, by decide,
    commandExists_ttl_checkPasteTools_idempotent.1 [("xdotool", ⟨true, 10⟩)] 5 c5Probe
      "xdotool" ⟨true, 10⟩ (by decide) (by decide)⟩,
   commandExists_ttl_checkPasteTools_idempotent.2.1 [("xdotool", ⟨true, 10⟩)] 10 c5Probe
     "xdotool" ⟨true, 10⟩ (by decide) (by decide),
   commandExists_ttl_checkPasteTools_idempotent.2.2.1 [] 0 c5FailProbe "wtype" rfl rfl,
   commandExists_ttl_checkPasteTools_idempotent.2.2.2 c5Env c5Probe 0 100 (by decide)⟩

/-- C6: the Linux focused-window classifier lower-cases the window class
and matches it by substring against the fixed registry: any class
containing "konsole" or "xterm" classifies as terminal, "firefox"
classifies as false, and every probe failure (missing tool, nonzero exit,
spawn error) classifies as false. -/
theorem terminal_classifier_substring_failsafe :
    (∀ (s : String) (k : Bool) (ka : Option SpawnSyncRes) (kc : String → Option SpawnSyncRes),
        strIncludes s "konsole" = true → isTerminal (some s) k ka kc = true) ∧
    (∀ (s : String) (k : Bool) (ka : Option SpawnSyncRes) (kc : String → Option SpawnSyncRes),
        strIncludes s "xterm" = true → isTerminal (some s) k ka kc = true) ∧
    (∀ (k : Bool) (ka : Option SpawnSyncRes) (kc : String → Option SpawnSyncRes),
        isTerminal (some "firefox") k ka kc = false) ∧
    (∀ (si : SessionInfo) (res : Option SpawnSyncRes),
        getXdotoolWindowClass false si res = none) ∧
    (∀ (ex : Bool) (si : SessionInfo), getXdotoolWindowClass ex si none = none) ∧
    (∀ (ex : Bool) (si : SessionInfo) (c : Int) (out : String), c ≠ 0 →
        getXdotoolWindowClass ex si (some ⟨c, out⟩) = none) ∧
    (∀ (ka : Option SpawnSyncRes) (kc : String → Option SpawnSyncRes),
        isTerminal none false ka kc = false) ∧
    (∀ (kc : String → Option SpawnSyncRes) (c : Int) (out : String), c ≠ 0 →
        isTerminal none true (some ⟨c, out⟩) kc = false) ∧
    (∀ kc : String → Option SpawnSyncRes, isTerminal none true none kc = false) ∧
    getXdotoolWindowClass true ⟨false, false, "", false⟩ (some ⟨0, "  XTerm\n"⟩) =
      some "xterm" := by
  refine ⟨?_, ?_, ?_, ?_, ?_, ?_, ?_, ?_, ?_, by decide⟩
  · intro s k ka kc h
    have hs : ¬ s = "" := by
      intro he
      rw [he] at h
      exact absurd h (by decide)
    simp only [isTerminal, if_neg hs]
    rw [List.any_eq_true]
    exact ⟨"konsole", by decide, h⟩
  · intro s k ka kc h
    have hs : ¬ s = "" := by
      intro he
      rw [he] at h
      exact absurd h (by decide)
    simp only [isTerminal, if_neg hs]
    rw [List.any_eq_true]
    exact ⟨"xterm", by decide, h⟩
  · intro k ka kc
    rfl
  · intro si res
    simp [getXdotoolWindowClass]
  · intro ex si
    unfold getXdotoolWindowClass
    split <;> rfl
  · intro ex si c out hc
    unfold getXdotoolWindowClass
    split
    · rfl
    · simp [hc]
  · intro ka kc
    simp [isTerminal, kdotoolTerminalCheck]
  · intro kc c out hc
    simp [isTerminal, kdotoolTerminalCheck, hc]
  · intro kc
    simp [isTerminal, kdotoolTerminalCheck]

theorem terminal_classifier_substring_failsafe_witness :
    strIncludes "xkonsole2" "konsole" = true ∧
    isTerminal (some "xkonsole2") false none (fun _ => none) = true :=
  ⟨by decide,
   terminal_classifier_substring_failsafe.1 "xkonsole2" false none (fun _ => none) (by decide)⟩

/-- C8 counterexample: a permission probe whose osascript spawn fails is
a probe whose result is a denial (`value = false`, `spawned = true`), yet
it triggers zero remediation dialogs — not "exactly once per probe". -/
theorem access_denial_dialog_counterexample :
    (checkAccessibilityPermissions ⟨none, 0⟩ 5 .spawnError).spawned = true ∧
    (checkAccessibilityPermissions ⟨none, 0⟩ 5 .spawnError).value = false ∧
    (checkAccessibilityPermissions ⟨none, 0⟩ 5 .spawnError).dialogCount = 0 := by
  decide

/-- C8 (amended): a probe observing a nonzero osascript exit denies and
triggers the remediation dialog exactly once; a probe whose spawn fails
denies with no dialog; a cached denial within the TTL is returned with no
remediation action and no subprocess; and the probe runs exactly when the
cache has no unexpired non-null entry. -/
theorem access_dialog_once_per_nonzero_exit_probe :
    (∀ (now : Nat) (code : Int) (err : String), code ≠ 0 →
        accessProbeRun now (.exited code err) =
          ⟨false, ⟨some false, now + CACHE_TTL_MS⟩, true, 1⟩) ∧
    (∀ now : Nat,
        accessProbeRun now .spawnError = ⟨false, ⟨some false, now + CACHE_TTL_MS⟩, true, 0⟩) ∧
    (∀ (exp now : Nat) (probe : AccessProbe), now < exp →
        checkAccessibilityPermissions ⟨some false, exp⟩ now probe =
          ⟨false, ⟨some false, exp⟩, false, 0⟩) ∧
    (∀ (c : AccessCache) (now : Nat) (probe : AccessProbe),
        c.value = none ∨ c.expiresAt ≤ now →
        checkAccessibilityPermissions c now probe = accessProbeRun now probe) := by
  refine ⟨?_, ?_, ?_, ?_⟩
  · intro now code err hc
    simp [accessProbeRun, hc]
  · intro now
    rfl
  · intro exp now probe h
    simp [checkAccessibilityPermissions, h]
  · intro c now probe h
    unfold checkAccessibilityPermissions
    rcases h with h | h
    · rw [h]
      split <;> rfl
    · have hn : ¬ now < c.expiresAt := by omega
      rw [if_neg hn]

theorem access_dialog_once_per_nonzero_exit_probe_witness :
    ((1 : Int) ≠ 0 ∧
      accessProbeRun 7 (.exited 1 "not allowed assistive access") =
        ⟨false, ⟨some false, 7 + CACHE_TTL_MS⟩, true, 1⟩) ∧
    (5 < 99 ∧
      checkAccessibilityPermissions ⟨some false, 99⟩ 5 .spawnError =
        ⟨false, ⟨some false, 99⟩, false, 0⟩) :=
  ⟨⟨by decide,
    access_dialog_once_per_nonzero_exit_probe.1 7 1 "not allowed assistive access" (by decide)⟩,
   ⟨by decide,
    access_dialog_once_per_nonzero_exit_probe.2.2.1 99 5 .spawnError (by decide)⟩⟩

/-- C9: on Windows, `checkPasteTools()` always reports method
"powershell" with an empty tools list and spawns no probe — independent
of nircmd — while a `pasteText` call with a resolved nircmd path reports
the "nircmd" method. -/
theorem checkPasteTools_win32_hides_nircmd :
    (∀ (e : LinuxEnv) (cache : List (String × CacheEntry)) (now : Nat)
        (probe : String → Option Bool),
        (checkPasteTools "win32" e cache now probe).info =
          ⟨"win32", true, some "powershell", false, [], none, none, none⟩ ∧
        (checkPasteTools "win32" e cache now probe).spawns = 0) ∧
    (∀ (text : String) (w : PasteWorld) (p : String),
        w.platform = "win32" → w.nircmdPath = some p →
        (pasteText text w).method = "nircmd") := by
  refine ⟨?_, ?_⟩
  · intro e cache now probe
    exact ⟨rfl, rfl⟩
  · intro text w p h1 h2
    simp [pasteText, liftMech, h1, h2]

/-- Concrete instantiation of C9 (nircmd resolved on disk). -/
def c9World : PasteWorld :=
  ⟨"win32", "orig", true, .exited 0, some "resources/bin/nircmd.exe", .exited 0, .exited 0,
   ⟨none, none, none, none, none, none⟩,
   ⟨fun _ => false, none, none, fun _ => none, fun _ => .exited 0⟩⟩

theorem checkPasteTools_win32_hides_nircmd_witness :
    c9World.platform = "win32" ∧ c9World.nircmdPath = some "resources/bin/nircmd.exe" ∧
    (pasteText "txt" c9World).method = "nircmd" :=
  ⟨rfl, rfl,
   checkPasteTools_win32_hides_nircmd.2 "txt" c9World "resources/bin/nircmd.exe" rfl rfl⟩

end OpenWhispr
